import Mathlib

/-!
Verification of the question/session timer and logging contract of the
MyRepo timer utilities: the Tk mock-test per-question timer
(`src/MTU/mock_test_timer_gui.py`) and the terminal study-timer logger
(`src/study_timer.py`).

The embedding is shallow: each Python function the properties touch is
translated into a Lean definition over explicit state; the one-second
scheduler callbacks become explicit tick applications, file contents become
strings, and the float arithmetic on whole seconds is modelled exactly with
`ℚ` (for integer second counts and integer minute limits the double rounding
of `elapsed / 60` cannot cross an integer threshold, so the rational
comparison coincides with the float one).
-/

namespace MockTest

/-- Per-question timer state: the `question_data[question_num]` entries
`"timer_running"`, `"elapsed_seconds"` and `"beep_played"` created in
`create_question_block` (mock_test_timer_gui.py lines 492-500).
`elapsed_seconds` is a natural number: in the source it starts at 0 and is
only ever incremented by 1. -/
structure QTimer where
  timer_running : Bool
  elapsed_seconds : Nat
  beep_played : Bool
deriving DecidableEq

/-- Freshly created question state (lines 496-499). -/
def initQ : QTimer :=
  { timer_running := false, elapsed_seconds := 0, beep_played := false }

/-- One invocation of `run_question_timer` (lines 834-853): when the timer is
running it increments `elapsed_seconds`, and plays the beep when
`elapsed_seconds / 60 > max_time_per_question` and the beep has not been
played yet.  Returns the new state and whether the beep fired during this
invocation. -/
def run_question_timer (max_time_per_question : Nat) (q : QTimer) : QTimer × Bool :=
  if q.timer_running then
    let e := q.elapsed_seconds + 1
    if (e : ℚ) / 60 > (max_time_per_question : ℚ) ∧ q.beep_played = false then
      ({ q with elapsed_seconds := e, beep_played := true }, true)
    else
      ({ q with elapsed_seconds := e }, false)
  else
    (q, false)

/-- `start_question_timer` (lines 587-592): when the timer is not running it
sets `timer_running`, clears `beep_played`, and directly invokes
`run_question_timer` once (the `root.after` scheduler then delivers the
later ticks).  Returns the new state and whether that immediate invocation
beeped.  Note that `elapsed_seconds` is not reset here. -/
def start_question_timer (max_time_per_question : Nat) (q : QTimer) : QTimer × Bool :=
  if q.timer_running = false then
    run_question_timer max_time_per_question
      { q with timer_running := true, beep_played := false }
  else
    (q, false)

/-- `pause_question_timer` (lines 635-637). -/
def pause_question_timer (q : QTimer) : QTimer :=
  { q with timer_running := false }

/-- The timer-state effect of `stop_question_timer` (lines 639-641) on the
stopped question itself; the floating-window bookkeeping and the auto-start
of the next question's timer act on other questions' state. -/
def stop_question_timer (q : QTimer) : QTimer :=
  { q with timer_running := false }

/-- `n` scheduled `run_question_timer` callbacks (the `root.after(1000, ...)`
chain), returning the final state and how many of them beeped. -/
def tickCount (max_time_per_question : Nat) : Nat → QTimer → QTimer × Nat
  | 0, q => (q, 0)
  | n + 1, q =>
    let s := run_question_timer max_time_per_question q
    let r := tickCount max_time_per_question n s.1
    (r.1, (if s.2 then 1 else 0) + r.2)

/-- State after `n` scheduled ticks. -/
def ticksQ (max_time_per_question n : Nat) (q : QTimer) : QTimer :=
  (tickCount max_time_per_question n q).1

/-- Number of beeps over `n` scheduled ticks. -/
def beepsQ (max_time_per_question n : Nat) (q : QTimer) : Nat :=
  (tickCount max_time_per_question n q).2

/-- One run of the per-question timer: `start_question_timer`, then `n`
scheduled ticks.  Returns the final state and the total number of beeps
delivered during the run (including the start's immediate invocation). -/
def runTimerRun (max_time_per_question n : Nat) (q : QTimer) : QTimer × Nat :=
  let s := start_question_timer max_time_per_question q
  let r := tickCount max_time_per_question n s.1
  (r.1, (if s.2 then 1 else 0) + r.2)

end MockTest

namespace StudyTimer

/-! ### Python primitives

`study_timer.py` parses user input and log fields with Python's `int()` and
`str.split`/`str.strip`.  These are modelled by structural recursion over
character lists so that every definition evaluates inside the kernel. -/

/-- Python `s.split(";")`: splits on every `';'`; the empty string yields
`[""]`. -/
def splitSemi : List Char → List (List Char)
  | [] => [[]]
  | c :: cs =>
    match splitSemi cs, c with
    | r, ';' => [] :: r
    | [], _ => [[c]]
    | h :: t, _ => (c :: h) :: t

/-- Python `str.strip()` / the whitespace stripping performed by `int()`:
drop leading and trailing whitespace. -/
def stripChars (cs : List Char) : List Char :=
  ((cs.dropWhile Char.isWhitespace).reverse.dropWhile Char.isWhitespace).reverse

/-- Continuation of Python's integer-literal digitpart: digits with single
underscores allowed only between digits. -/
def pyDigitsRest : List Char → Bool
  | [] => true
  | ['_'] => false
  | '_' :: c :: cs => c.isDigit && pyDigitsRest (c :: cs)
  | c :: cs => c.isDigit && pyDigitsRest cs

/-- Python's integer-literal digitpart: `digit (["_"] digit)*`. -/
def pyDigitpart : List Char → Bool
  | [] => false
  | c :: cs => c.isDigit && pyDigitsRest cs

/-- Numeric value of a digitpart (underscores are separators). -/
def digitsVal (cs : List Char) : Nat :=
  (cs.filter (fun c => c ≠ '_')).foldl (fun n c => n * 10 + (c.toNat - '0'.toNat)) 0

/-- Python `int(str)` on an already-stripped character list: an optional
single sign followed by a digitpart; anything else raises `ValueError`,
modelled as `none`. -/
def pyIntCore (cs : List Char) : Option Int :=
  match cs with
  | '+' :: rest => if pyDigitpart rest then some (digitsVal rest : Int) else none
  | '-' :: rest => if pyDigitpart rest then some (-(digitsVal rest : Int)) else none
  | _ => if pyDigitpart cs then some (digitsVal cs : Int) else none

/-- Python `int(s)` for a string: strips surrounding whitespace itself. -/
def pyInt (s : String) : Option Int :=
  pyIntCore (stripChars s.toList)

/-! ### CSV writing (csv.writer with the default dialect) -/

/-- Whether `csv.writer`'s minimal quoting must quote this field. -/
def needsQuote (s : String) : Bool :=
  s.toList.any fun c => c == ',' || c == '"' || c == '\n' || c == '\r'

/-- Double every quote character, as `csv.writer` does inside quoted
fields. -/
def doubleQuotes : List Char → List Char
  | [] => []
  | c :: cs => if c = '"' then '"' :: '"' :: doubleQuotes cs else c :: doubleQuotes cs

/-- One field as emitted by `csv.writer` (default dialect: delimiter `,`,
quote char `"`, minimal quoting). -/
def csvQuoteField (s : String) : String :=
  if needsQuote s then "\"" ++ String.mk (doubleQuotes s.toList) ++ "\"" else s

/-- Join strings with a separator (Python `sep.join`). -/
def joinWith (sep : String) : List String → String
  | [] => ""
  | [x] => x
  | x :: y :: xs => x ++ sep ++ joinWith sep (y :: xs)

/-- One `writer.writerow(fields)` call: comma-separated minimally quoted
fields terminated by the default `"\r\n"`. -/
def csvRow (fields : List String) : String :=
  joinWith "," (fields.map csvQuoteField) ++ "\r\n"

/-- `CSV_HEADERS` (study_timer.py lines 103-110). -/
def CSV_HEADERS : List String :=
  ["datetime", "session_wall_seconds", "questions_started",
   "questions_attempted", "questions_correct", "per_question_durations_seconds"]

/-- `DEFAULT_DURATION_SECONDS = 4 * 60` (line 111). -/
def DEFAULT_DURATION_SECONDS : Nat := 4 * 60

/-- File open modes used by the logger. -/
inductive OpenMode
  | write
  | append

/-- Contents of a file (`none` when absent) after opening it in the given
mode and writing `data`: `"w"` truncates, `"a"` keeps every prior byte and
puts the new bytes at the end. -/
def openAndWrite : OpenMode → Option String → String → String
  | .write, _, data => data
  | .append, prior, data => prior.getD "" ++ data

/-- `ensure_csv` (lines 114-118): create the file with the single fixed
header row when absent, leave it untouched otherwise.  Returns the file's
contents afterwards. -/
def ensure_csv (file : Option String) : String :=
  match file with
  | none => openAndWrite .write none (csvRow CSV_HEADERS)
  | some c => c

/-- The six fields of a session row as written by `append_session`
(lines 121-133): timestamp, wall seconds, started/attempted/correct counts,
and the `';'`-joined per-question durations. -/
def sessionRowFields (now : String) (wall_seconds : Int) (started attempted : Nat)
    (correct : Int) (durations : List Nat) : List String :=
  [now, toString wall_seconds, toString started, toString attempted, toString correct,
   joinWith ";" (durations.map (fun d => toString (d : Int)))]

/-- `append_session` (lines 121-133): open the log in append mode and write
one new row.  Returns the file's contents afterwards. -/
def append_session (file : Option String) (now : String) (wall_seconds : Int)
    (started attempted : Nat) (correct : Int) (durations : List Nat) : String :=
  openAndWrite .append file (csvRow (sessionRowFields now wall_seconds started attempted correct durations))

/-! ### The interactive session (class `Session`, lines 164-191) -/

/-- `Session` state.  `current_start` holds the `time.monotonic()` start
instant (whole seconds; `time.monotonic` is non-decreasing, so elapsed
values are naturals). -/
structure Session where
  duration_seconds : Nat
  current_start : Option Nat
  per_question_durations : List Nat
  started_count : Nat
deriving DecidableEq

/-- `Session.start` (lines 171-174). -/
def Session.start (now : Nat) (s : Session) : Session :=
  { s with current_start := some now, started_count := s.started_count + 1 }

/-- `Session.end` (lines 176-183): record `int(monotonic() - start)`,
clear the running timer, and return the elapsed value. -/
def Session.endTimer (now : Nat) (s : Session) : Nat × Session :=
  match s.current_start with
  | none => (0, s)
  | some t =>
    (now - t,
     { s with per_question_durations := s.per_question_durations ++ [now - t],
              current_start := none })

/-- `Session.is_running` (lines 185-186). -/
def Session.is_running (s : Session) : Bool :=
  s.current_start.isSome

/-- `Session.elapsed_since_start` (lines 188-191). -/
def Session.elapsed_since_start (now : Nat) (s : Session) : Nat :=
  match s.current_start with
  | none => 0
  | some t => now - t

/-! ### The overdue alarm of the interactive loop (lines 256-273)

Each poll iteration of `interactive_loop` compares
`session.elapsed_since_start() >= session.duration_seconds`; on the first
poll where this holds it enters alarm mode (`alarm_active = True`, the
"Timer exceeded full duration" alert) and while in alarm mode it keeps
beeping without re-triggering the alert.  `alarm_active` is cleared only
when the question is ended by Enter (line 248), i.e. at the boundary to the
next run.  The poll state below is `(alarm_active, alert_count)`. -/

/-- One poll iteration's alarm check, observing the session at time `now`. -/
def alarmStep (s : Session) (st : Bool × Nat) (now : Nat) : Bool × Nat :=
  if s.duration_seconds ≤ s.elapsed_since_start now then
    if st.1 then st else (true, st.2 + 1)
  else st

/-- Number of alarm activations over one run: polls at the instants `nows`,
starting with `alarm_active = False` as at every question start. -/
def alarmRun (s : Session) (nows : List Nat) : Nat :=
  (nows.foldl (alarmStep s) (false, 0)).2

/-! ### Session finalisation (`interactive_loop` lines 280-302) -/

/-- `prompt_int` reading from the input-line queue (lines 136-161): returns
the first line that is a non-negative integer (the empty line maps to the
default when one is given); re-prompts otherwise.  `none` models an input
stream that ends before a valid answer (the Python loop would keep
waiting). -/
def prompt_int (inputs : List String) (dflt : Option Int) : Option Int :=
  match inputs with
  | [] => none
  | s :: rest =>
    if s = "" ∧ dflt.isSome = true then dflt
    else
      match pyInt s with
      | some v => if v < 0 then prompt_int rest dflt else some v
      | none => prompt_int rest dflt

/-- The end-of-session logging decision (lines 286-301): with
`attempted = len(per_question_durations)`, nothing is logged when
`attempted == 0`; otherwise the wrong count is prompted (no default) and one
row with `correct = max(0, attempted - wrong)` is appended.  Returns the log
contents and, when a row was written, `(correct, wrong)`. -/
def finalizeSession (s : Session) (wall_seconds : Int) (now : String)
    (inputs : List String) (file : Option String) : String × Option (Int × Int) :=
  let attempted := s.per_question_durations.length
  if attempted = 0 then (file.getD "", none)
  else
    match prompt_int inputs none with
    | none => (file.getD "", none)
    | some wrong =>
      let correct : Int := max 0 ((attempted : Int) - wrong)
      (append_session file now wall_seconds s.started_count attempted correct
        s.per_question_durations,
       some (correct, wrong))

/-! ### Statistics recomputation (`compute_and_print_stats`, lines 341-411) -/

/-- One row as yielded by `csv.DictReader`: the value of each header column,
`none` when the column is missing from the row or the file (DictReader's
`restval`). -/
structure RawRow where
  datetime : Option String
  questions_attempted : Option String
  questions_correct : Option String
  per_question_durations_seconds : Option String

/-- `int(row.get(key, "0") or 0)`: a missing or empty value counts as 0,
anything else goes through `int()`; `none` is the `ValueError` case. -/
def parseCountField (v : Option String) : Option Int :=
  match v with
  | none => some 0
  | some s => if s = "" then some 0 else pyInt s

/-- `[int(x) for x in field.split(";") if x.strip()]`; `none` when any
`int(x)` raises. -/
def parseDurations (v : Option String) : Option (List Int) :=
  (((v.getD "").toList |> splitSemi).filter
      (fun cs => !(stripChars cs).isEmpty)).mapM
    (fun cs => pyIntCore (stripChars cs))

/-- The defensive parse of one row (lines 364-373): the `try` block of the
reader loop; `none` is the `except` path. -/
def parseRow (r : RawRow) : Option (String × Int × Int × List Int) :=
  match parseCountField r.questions_attempted, parseCountField r.questions_correct,
        parseDurations r.per_question_durations_seconds with
  | some a, some c, some ds => some (r.datetime.getD "", a, c, ds)
  | _, _, _ => none

/-- The reader loop (lines 362-378): malformed rows are skipped
(`continue`), well-formed rows are collected in order. -/
def gatherLoop : List RawRow → List (String × Int × Int × List Int)
  | [] => []
  | r :: rest =>
    match parseRow r with
    | none => gatherLoop rest
    | some p => p :: gatherLoop rest

/-- The aggregates computed and printed by `compute_and_print_stats`
(lines 380-400): session count, attempted/correct totals, overall accuracy
(`none` prints as "N/A"), and sum/mean/min/max of all recorded durations
(`none` prints as the no-data message). -/
structure Stats where
  num_sessions : Nat
  total_attempted : Int
  total_correct : Int
  accuracy : Option ℚ
  sum_durations : Int
  avg_duration : Option ℚ
  fastest : Option Int
  slowest : Option Int
deriving DecidableEq

/-- The aggregates as a function of the collected well-formed rows. -/
def statsOfSessions (sessions : List (String × Int × Int × List Int)) : Stats :=
  let all_durations := (sessions.map (fun p => p.2.2.2)).flatten
  let total_attempted := (sessions.map (fun p => p.2.1)).sum
  let total_correct := (sessions.map (fun p => p.2.2.1)).sum
  { num_sessions := sessions.length
    total_attempted := total_attempted
    total_correct := total_correct
    accuracy :=
      if 0 < total_attempted then
        some ((total_correct : ℚ) / (total_attempted : ℚ) * 100)
      else none
    sum_durations := all_durations.sum
    avg_duration :=
      if all_durations = [] then none
      else some ((all_durations.sum : ℚ) / (all_durations.length : ℚ))
    fastest := all_durations.min?
    slowest := all_durations.max? }

/-- `compute_and_print_stats` (lines 341-411) restricted to its data flow:
collect the well-formed rows, then compute the aggregates. -/
def compute_and_print_stats (rows : List RawRow) : Stats :=
  statsOfSessions (gatherLoop rows)

/-- The per-session accuracy of the trend listing (line 406):
`(correct / attempted * 100) if attempted > 0 else None`. -/
def per_session_accuracy (attempted correct : Int) : Option ℚ :=
  if 0 < attempted then some ((correct : ℚ) / (attempted : ℚ) * 100) else none

end StudyTimer

/-! ## Helper lemmas: the mock-test per-question timer -/

/-- The beep condition of `run_question_timer` in integer form: for whole
seconds and whole minutes, `elapsed / 60 > max` is exactly
`60 * max < elapsed`. -/
theorem MockTest.div60_gt_iff (m e : Nat) :
    ((e : ℚ) / 60 > (m : ℚ)) ↔ 60 * m < e := by
  rw [gt_iff_lt, lt_div_iff₀ (by norm_num : (0:ℚ) < 60), mul_comm]
  exact_mod_cast Iff.rfl

theorem MockTest.run_question_timer_not_running (max : Nat) (q : MockTest.QTimer)
    (h : q.timer_running = false) :
    MockTest.run_question_timer max q = (q, false) := by
  simp [MockTest.run_question_timer, h]

theorem MockTest.run_question_timer_running (max : Nat) (q : MockTest.QTimer)
    (h : q.timer_running = true) :
    MockTest.run_question_timer max q =
      (⟨true, q.elapsed_seconds + 1,
         q.beep_played || decide (60 * max < q.elapsed_seconds + 1)⟩,
       !q.beep_played && decide (60 * max < q.elapsed_seconds + 1)) := by
  obtain ⟨tr, e, bp⟩ := q
  obtain rfl : tr = true := h
  simp only [MockTest.run_question_timer, MockTest.div60_gt_iff]
  cases bp <;> by_cases hc : 60 * max < e + 1 <;> simp [hc]

theorem MockTest.tickCount_not_running (max n : Nat) (q : MockTest.QTimer)
    (h : q.timer_running = false) :
    MockTest.tickCount max n q = (q, 0) := by
  induction n with
  | zero => rfl
  | succ n ih =>
    simp [MockTest.tickCount, MockTest.run_question_timer_not_running max q h, ih]

theorem MockTest.tickCount_running (max n : Nat) (q : MockTest.QTimer)
    (h : q.timer_running = true) :
    MockTest.tickCount max n q =
      (⟨true, q.elapsed_seconds + n,
         q.beep_played || (decide (0 < n) && decide (60 * max < q.elapsed_seconds + n))⟩,
       if q.beep_played = false ∧ 0 < n ∧ 60 * max < q.elapsed_seconds + n then 1 else 0) := by
  induction n generalizing q with
  | zero =>
    obtain ⟨tr, e, bp⟩ := q
    obtain rfl : tr = true := h
    simp [MockTest.tickCount]
  | succ n ih =>
    obtain ⟨tr, e, bp⟩ := q
    obtain rfl : tr = true := h
    have h1 := MockTest.run_question_timer_running max ⟨true, e, bp⟩ rfl
    have h2 := ih ⟨true, e + 1, bp || decide (60 * max < e + 1)⟩ rfl
    simp only [MockTest.tickCount, h1, h2]
    have hadd : e + 1 + n = e + (n + 1) := by omega
    simp only [hadd, Prod.mk.injEq, MockTest.QTimer.mk.injEq]
    cases bp <;>
      by_cases hc1 : 60 * max < e + 1 <;>
      by_cases hc2 : 60 * max < e + (n + 1) <;>
      by_cases hn : 0 < n <;>
      simp [hc1, hc2, hn] <;>
      omega

theorem MockTest.start_question_timer_not_running (max : Nat) (q : MockTest.QTimer)
    (h : q.timer_running = false) :
    MockTest.start_question_timer max q =
      (⟨true, q.elapsed_seconds + 1, decide (60 * max < q.elapsed_seconds + 1)⟩,
       decide (60 * max < q.elapsed_seconds + 1)) := by
  obtain ⟨tr, e, bp⟩ := q
  obtain rfl : tr = false := h
  have h1 := MockTest.run_question_timer_running max ⟨true, e, false⟩ rfl
  simp [MockTest.start_question_timer, h1]

theorem MockTest.runTimerRun_spec (max n : Nat) (q : MockTest.QTimer)
    (h : q.timer_running = false) :
    MockTest.runTimerRun max n q =
      (⟨true, q.elapsed_seconds + (n + 1),
         decide (60 * max < q.elapsed_seconds + (n + 1))⟩,
       if 60 * max < q.elapsed_seconds + (n + 1) then 1 else 0) := by
  obtain ⟨tr, e, bp⟩ := q
  obtain rfl : tr = false := h
  have h1 := MockTest.start_question_timer_not_running max ⟨false, e, bp⟩ rfl
  have h2 := MockTest.tickCount_running max n ⟨true, e + 1, decide (60 * max < e + 1)⟩ rfl
  simp only [MockTest.runTimerRun, h1, h2]
  have hadd : e + 1 + n = e + (n + 1) := by omega
  simp only [hadd, Prod.mk.injEq, MockTest.QTimer.mk.injEq]
  by_cases hc1 : 60 * max < e + 1 <;>
    by_cases hc2 : 60 * max < e + (n + 1) <;>
    by_cases hn : 0 < n <;>
    simp [hc1, hc2, hn] <;>
    omega

theorem MockTest.ticksQ_zero (max : Nat) (q : MockTest.QTimer) :
    MockTest.ticksQ max 0 q = q := rfl

theorem MockTest.ticksQ_succ (max n : Nat) (q : MockTest.QTimer) :
    MockTest.ticksQ max (n + 1) q =
      MockTest.ticksQ max n (MockTest.run_question_timer max q).1 := rfl

theorem MockTest.elapsed_le_run (max : Nat) (q : MockTest.QTimer) :
    q.elapsed_seconds ≤ (MockTest.run_question_timer max q).1.elapsed_seconds := by
  obtain ⟨tr, e, bp⟩ := q
  cases tr
  · rw [MockTest.run_question_timer_not_running max _ rfl]
  · rw [MockTest.run_question_timer_running max _ rfl]
    exact Nat.le_succ e

theorem MockTest.elapsed_le_ticksQ (max n : Nat) (q : MockTest.QTimer) :
    q.elapsed_seconds ≤ (MockTest.ticksQ max n q).elapsed_seconds := by
  induction n generalizing q with
  | zero => exact Nat.le_refl _
  | succ n ih =>
    rw [MockTest.ticksQ_succ]
    exact Nat.le_trans (MockTest.elapsed_le_run max q)
      (ih (MockTest.run_question_timer max q).1)

theorem MockTest.ticksQ_add (max n m : Nat) (q : MockTest.QTimer) :
    MockTest.ticksQ max (n + m) q = MockTest.ticksQ max m (MockTest.ticksQ max n q) := by
  induction n generalizing q with
  | zero => rw [MockTest.ticksQ_zero, Nat.zero_add]
  | succ n ih =>
    rw [Nat.succ_add, MockTest.ticksQ_succ, MockTest.ticksQ_succ, ih]

theorem MockTest.ticksQ_mono (max : Nat) {n m : Nat} (hnm : n ≤ m) (q : MockTest.QTimer) :
    (MockTest.ticksQ max n q).elapsed_seconds ≤ (MockTest.ticksQ max m q).elapsed_seconds := by
  obtain ⟨k, rfl⟩ := Nat.exists_eq_add_of_le hnm
  rw [MockTest.ticksQ_add]
  exact MockTest.elapsed_le_ticksQ max k _

theorem MockTest.ticksQ_not_running (max n : Nat) (q : MockTest.QTimer)
    (h : q.timer_running = false) :
    MockTest.ticksQ max n q = q := by
  unfold MockTest.ticksQ
  rw [MockTest.tickCount_not_running max n q h]

/-! ## Helper lemmas: the study-timer logger -/

/-- Alarm latching over one run: starting from poll state `(a, c)`, the
number of alarm activations grows by one exactly when the alarm is not yet
active and some poll observes the limit reached. -/
theorem StudyTimer.alarmRun_foldl (s : StudyTimer.Session) (nows : List Nat)
    (a : Bool) (c : Nat) :
    (nows.foldl (StudyTimer.alarmStep s) (a, c)).2 =
      c + (if (!a) &&
            nows.any (fun now => decide (s.duration_seconds ≤ s.elapsed_since_start now))
          then 1 else 0) := by
  induction nows generalizing a c with
  | nil => simp
  | cons x xs ih =>
    simp only [List.foldl_cons, List.any_cons]
    by_cases hx : s.duration_seconds ≤ s.elapsed_since_start x
    · cases a
      · have hs : StudyTimer.alarmStep s (false, c) x = (true, c + 1) := by
          simp [StudyTimer.alarmStep, hx]
        rw [hs, ih]
        simp [hx]
      · have hs : StudyTimer.alarmStep s (true, c) x = (true, c) := by
          simp [StudyTimer.alarmStep, hx]
        rw [hs, ih]
        simp
    · have hs : StudyTimer.alarmStep s (a, c) x = (a, c) := by
        simp [StudyTimer.alarmStep, hx]
      rw [hs, ih]
      simp [hx]

theorem StudyTimer.gatherLoop_eq_filterMap (rows : List StudyTimer.RawRow) :
    StudyTimer.gatherLoop rows = rows.filterMap StudyTimer.parseRow := by
  induction rows with
  | nil => rfl
  | cons r rest ih =>
    cases h : StudyTimer.parseRow r <;>
      simp [StudyTimer.gatherLoop, List.filterMap_cons, h, ih]

theorem StudyTimer.gatherLoop_filter_wellformed (rows : List StudyTimer.RawRow) :
    StudyTimer.gatherLoop (rows.filter (fun r => (StudyTimer.parseRow r).isSome)) =
      StudyTimer.gatherLoop rows := by
  induction rows with
  | nil => rfl
  | cons r rest ih =>
    cases h : StudyTimer.parseRow r <;>
      simp [StudyTimer.gatherLoop, List.filter_cons, h, ih]

/-- `prompt_int` with no default only ever returns a non-negative value
(lines 156-159: negative input is rejected and re-prompted). -/
theorem StudyTimer.prompt_int_nonneg (inputs : List String) (w : Int)
    (h : StudyTimer.prompt_int inputs none = some w) : 0 ≤ w := by
  induction inputs with
  | nil => simp [StudyTimer.prompt_int] at h
  | cons s rest ih =>
    have hstep : StudyTimer.prompt_int (s :: rest) none
        = (match StudyTimer.pyInt s with
           | some v => if v < 0 then StudyTimer.prompt_int rest none else some v
           | none => StudyTimer.prompt_int rest none) := by
      rw [StudyTimer.prompt_int, if_neg]
      simp
    rw [hstep] at h
    cases hv : StudyTimer.pyInt s with
    | none =>
      rw [hv] at h
      exact ih h
    | some v =>
      rw [hv] at h
      have h2 : (if v < 0 then StudyTimer.prompt_int rest none else some v) = some w := h
      by_cases hneg : v < 0
      · rw [if_pos hneg] at h2
        exact ih h2
      · rw [if_neg hneg] at h2
        cases h2
        omega

theorem StudyTimer.append_session_prefix (prior : String) (now : String) (w : Int)
    (st a : Nat) (c : Int) (d : List Nat) :
    (StudyTimer.append_session (some prior) now w st a c d).toList.take prior.toList.length
      = prior.toList := by
  show ((prior ++ StudyTimer.csvRow (StudyTimer.sessionRowFields now w st a c d)).toList).take
      prior.toList.length = prior.toList
  rw [show ∀ x y : String, (x ++ y).toList = x.toList ++ y.toList from fun x y => rfl]
  exact List.take_left _ _

/-! ## The claims -/

/-- C1 (amended): a fresh per-question timer that is started, then receives
`N` scheduled one-second ticks, then is stopped, reports an elapsed value of
`N + 1` seconds — not `N`: `start_question_timer` itself invokes
`run_question_timer` once immediately, so the elapsed counter equals the
number of `run_question_timer` invocations delivered while running, which is
`N + 1`. -/
theorem c1_elapsed_equals_ticks_plus_one (max n : Nat) :
    (MockTest.stop_question_timer
        (MockTest.ticksQ max n (MockTest.start_question_timer max MockTest.initQ).1)).elapsed_seconds
      = n + 1 := by
  have h1 := MockTest.start_question_timer_not_running max MockTest.initQ rfl
  have h2 := MockTest.tickCount_running max n
      ⟨true, MockTest.initQ.elapsed_seconds + 1,
        decide (60 * max < MockTest.initQ.elapsed_seconds + 1)⟩ rfl
  simp only [MockTest.ticksQ, MockTest.stop_question_timer, h1, h2]
  simp [MockTest.initQ]
  omega

/-- C1 counterexample: a fresh timer that is started and then stopped after
`N = 0` scheduled ticks already reports an elapsed value of 1 second, not 0,
refuting "elapsed = N". -/
theorem c1_counterexample :
    (MockTest.stop_question_timer
        (MockTest.ticksQ 5 0 (MockTest.start_question_timer 5 MockTest.initQ).1)).elapsed_seconds
      = 1 ∧
    (MockTest.stop_question_timer
        (MockTest.ticksQ 5 0 (MockTest.start_question_timer 5 MockTest.initQ).1)).elapsed_seconds
      ≠ 0 := by
  have h1 := MockTest.start_question_timer_not_running 5 MockTest.initQ rfl
  rw [MockTest.ticksQ_zero, h1]
  exact ⟨rfl, by decide⟩

/-- C2 (amended): during one run of a per-item timer (a start followed by
any number of ticks) the overrun alert fires exactly once when the timer
becomes overdue and never again while still overdue, and it is re-armed only
by the next start.  For the GUI question timer the trigger point is the
first tick at which elapsed *strictly exceeds* the configured limit
(`elapsed_seconds > 60 * max`) — merely reaching the limit does not trigger
it — so the total number of beeps in a run is 1 exactly when the final
elapsed value strictly exceeds the limit, and 0 otherwise.  For the terminal
study timer, the alarm activates exactly once per run, at the first poll
observing `elapsed_since_start ≥ duration_seconds` (reaching the limit). -/
theorem c2_alert_once_per_run (max n : Nat) (q : MockTest.QTimer)
    (h : q.timer_running = false) (s : StudyTimer.Session) (nows : List Nat) :
    (MockTest.runTimerRun max n q).2
        = (if 60 * max < q.elapsed_seconds + (n + 1) then 1 else 0) ∧
    (MockTest.runTimerRun max n q).1.elapsed_seconds = q.elapsed_seconds + (n + 1) ∧
    StudyTimer.alarmRun s nows
        = (if ∃ now ∈ nows, s.duration_seconds ≤ StudyTimer.Session.elapsed_since_start now s
           then 1 else 0) := by
  have hr := MockTest.runTimerRun_spec max n q h
  refine ⟨?_, ?_, ?_⟩
  · rw [hr]
  · rw [hr]
  · simp [StudyTimer.alarmRun, StudyTimer.alarmRun_foldl, List.any_eq_true]

/-- C2 witness: the amended theorem at a concrete input — a fresh GUI timer
with a 0-minute limit beeps exactly once during a start-only run, and a
study-timer run polled at 100 s and 300 s with a 240 s limit activates its
alarm exactly once. -/
theorem c2_witness :
    (MockTest.runTimerRun 0 0 MockTest.initQ).2
        = (if 60 * 0 < MockTest.initQ.elapsed_seconds + (0 + 1) then 1 else 0) ∧
    (MockTest.runTimerRun 0 0 MockTest.initQ).1.elapsed_seconds
        = MockTest.initQ.elapsed_seconds + (0 + 1) ∧
    StudyTimer.alarmRun ⟨240, some 0, [], 1⟩ [100, 300]
        = (if ∃ now ∈ ([100, 300] : List Nat),
              (⟨240, some 0, [], 1⟩ : StudyTimer.Session).duration_seconds
                ≤ StudyTimer.Session.elapsed_since_start now ⟨240, some 0, [], 1⟩
           then 1 else 0) :=
  c2_alert_once_per_run 0 0 MockTest.initQ rfl ⟨240, some 0, [], 1⟩ [100, 300]

/-- C2 counterexample: with a 1-minute limit, a fresh-timer run whose
elapsed value reaches exactly the configured limit (60 · 1 seconds) fires
zero alerts — the GUI question timer does not alert when elapsed merely
reaches the limit, refuting "triggered exactly once when elapsed time first
reaches the configured limit". -/
theorem c2_counterexample :
    (MockTest.runTimerRun 1 59 MockTest.initQ).1.elapsed_seconds = 60 * 1 ∧
    (MockTest.runTimerRun 1 59 MockTest.initQ).2 = 0 := by
  have hr := MockTest.runTimerRun_spec 1 59 MockTest.initQ rfl
  rw [hr]
  constructor <;> simp [MockTest.initQ]

/-- C3: appending to the log is append-only — for every prior file content
and every record, `append_session` produces exactly the prior content with
one new row at the end, so every previously written byte is unchanged; in
particular after writing row R2 following row R1, R1's bytes are still
byte-identical in the file. -/
theorem c3_append_only (prior : String) (nowA nowB : String) (wA wB : Int)
    (stA stB atA atB : Nat) (cA cB : Int) (dA dB : List Nat) :
    StudyTimer.append_session (some prior) nowA wA stA atA cA dA
        = prior ++ StudyTimer.csvRow (StudyTimer.sessionRowFields nowA wA stA atA cA dA) ∧
    (StudyTimer.append_session (some prior) nowA wA stA atA cA dA).toList.take
        prior.toList.length = prior.toList ∧
    (StudyTimer.append_session
          (some (StudyTimer.append_session (some prior) nowA wA stA atA cA dA))
          nowB wB stB atB cB dB).toList.take
        (StudyTimer.append_session (some prior) nowA wA stA atA cA dA).toList.length
      = (StudyTimer.append_session (some prior) nowA wA stA atA cA dA).toList :=
  ⟨rfl, StudyTimer.append_session_prefix prior nowA wA stA atA cA dA,
   StudyTimer.append_session_prefix _ nowB wB stB atB cB dB⟩

/-- C4: `ensure_csv` creates an absent log file containing exactly the fixed
header row, leaves an existing file's contents entirely unchanged, and is
idempotent: running it on its own output equals running it once. -/
theorem c4_ensure_csv_idempotent :
    StudyTimer.ensure_csv none
        = "datetime,session_wall_seconds,questions_started,questions_attempted,questions_correct,per_question_durations_seconds\r\n" ∧
    (∀ c : String, StudyTimer.ensure_csv (some c) = c) ∧
    (∀ file : Option String,
      StudyTimer.ensure_csv (some (StudyTimer.ensure_csv file)) = StudyTimer.ensure_csv file) :=
  ⟨rfl, fun _ => rfl, fun _ => rfl⟩

/-- C5: during statistics recomputation every malformed row (one whose
numeric fields fail to parse) is skipped and contributes nothing — the
statistics over any row list equal the statistics over its well-formed
subset, and the reader loop collects exactly the rows that parse.  The
computation is a total function, so it completes on every input without
raising. -/
theorem c5_malformed_rows_skipped (rows : List StudyTimer.RawRow) :
    StudyTimer.compute_and_print_stats rows
        = StudyTimer.compute_and_print_stats
            (rows.filter (fun r => (StudyTimer.parseRow r).isSome)) ∧
    StudyTimer.gatherLoop rows = rows.filterMap StudyTimer.parseRow := by
  refine ⟨?_, StudyTimer.gatherLoop_eq_filterMap rows⟩
  rw [StudyTimer.compute_and_print_stats, StudyTimer.compute_and_print_stats,
      StudyTimer.gatherLoop_filter_wellformed]

/-- C6: for a log whose recorded question durations are [30, 60, 90], the
statistics recomputation reports mean 60, min 30, max 90, and sum 180 over
those durations. -/
theorem c6_duration_stats :
    (StudyTimer.compute_and_print_stats
        [⟨some "2024-05-01 09:00:00", some "3", some "2", some "30;60;90"⟩]).avg_duration
      = some 60 ∧
    (StudyTimer.compute_and_print_stats
        [⟨some "2024-05-01 09:00:00", some "3", some "2", some "30;60;90"⟩]).fastest
      = some 30 ∧
    (StudyTimer.compute_and_print_stats
        [⟨some "2024-05-01 09:00:00", some "3", some "2", some "30;60;90"⟩]).slowest
      = some 90 ∧
    (StudyTimer.compute_and_print_stats
        [⟨some "2024-05-01 09:00:00", some "3", some "2", some "30;60;90"⟩]).sum_durations
      = 180 := by
  have hg : StudyTimer.gatherLoop
      [⟨some "2024-05-01 09:00:00", some "3", some "2", some "30;60;90"⟩]
      = [("2024-05-01 09:00:00", 3, 2, [30, 60, 90])] := rfl
  refine ⟨?_, rfl, rfl, rfl⟩
  rw [StudyTimer.compute_and_print_stats, hg]
  simp [StudyTimer.statsOfSessions]
  norm_num

/-- C7: accuracy is correct divided by attempted as a percentage — with
attempted = 10 and correct = 7 the reported overall accuracy is 70.0 %, with
attempted = 0 it is the defined "N/A" value (`none`) and no division is
performed; the per-session accuracy of the trend listing behaves the same
way. -/
theorem c7_accuracy :
    (StudyTimer.compute_and_print_stats [⟨some "d1", some "10", some "7", some ""⟩]).accuracy
        = some 70 ∧
    (StudyTimer.compute_and_print_stats [⟨some "d2", some "0", some "0", some ""⟩]).accuracy
        = none ∧
    StudyTimer.per_session_accuracy 10 7 = some 70 ∧
    (∀ c : Int, StudyTimer.per_session_accuracy 0 c = none) := by
  refine ⟨?_, rfl, ?_, fun _ => rfl⟩
  · have hg : StudyTimer.gatherLoop [⟨some "d1", some "10", some "7", some ""⟩]
        = [("d1", 10, 7, [])] := rfl
    rw [StudyTimer.compute_and_print_stats, hg]
    simp [StudyTimer.statsOfSessions]
    norm_num
  · rw [StudyTimer.per_session_accuracy, if_pos (by norm_num)]
    norm_num

/-- C8: the statistics over zero logged rows (an empty or header-only log
yields no data rows) are the defined "no data" result for every aggregate —
zero sessions, zero totals, "N/A" accuracy and no duration aggregates — and
the computation, a pure total function of the logged rows, raises nothing. -/
theorem c8_empty_stats :
    StudyTimer.compute_and_print_stats []
      = { num_sessions := 0, total_attempted := 0, total_correct := 0, accuracy := none,
          sum_durations := 0, avg_duration := none, fastest := none, slowest := none } := rfl

/-- C9: elapsed time is monotonically non-decreasing across ticks for every
timer state; a stopped or paused timer is frozen — any number of subsequent
ticks leaves its state unchanged, and pausing/stopping itself does not
change the elapsed value; the study-timer session's elapsed reading is
monotone in the (monotonic) clock while running and reads 0 once stopped.
All elapsed values are naturals, so none is ever negative. -/
theorem c9_elapsed_monotone_frozen (max n m now now' : Nat)
    (q : MockTest.QTimer) (s : StudyTimer.Session) :
    (n ≤ m →
      (MockTest.ticksQ max n q).elapsed_seconds ≤ (MockTest.ticksQ max m q).elapsed_seconds) ∧
    (q.timer_running = false → MockTest.ticksQ max n q = q) ∧
    ((MockTest.pause_question_timer q).elapsed_seconds = q.elapsed_seconds) ∧
    (MockTest.ticksQ max n (MockTest.pause_question_timer q) = MockTest.pause_question_timer q) ∧
    ((MockTest.stop_question_timer q).elapsed_seconds = q.elapsed_seconds) ∧
    (MockTest.ticksQ max n (MockTest.stop_question_timer q) = MockTest.stop_question_timer q) ∧
    (now ≤ now' → s.is_running = true →
      StudyTimer.Session.elapsed_since_start now s
        ≤ StudyTimer.Session.elapsed_since_start now' s) ∧
    (s.current_start = none → StudyTimer.Session.elapsed_since_start now s = 0) := by
  refine ⟨fun hnm => MockTest.ticksQ_mono max hnm q,
          fun h => MockTest.ticksQ_not_running max n q h,
          rfl,
          MockTest.ticksQ_not_running max n _ rfl,
          rfl,
          MockTest.ticksQ_not_running max n _ rfl,
          ?_, ?_⟩
  · intro hnn _
    cases hcs : s.current_start with
    | none => simp [StudyTimer.Session.elapsed_since_start, hcs]
    | some t =>
      simp only [StudyTimer.Session.elapsed_since_start, hcs]
      omega
  · intro hnone
    simp [StudyTimer.Session.elapsed_since_start, hnone]

/-- C9 witness: the monotone/frozen theorem at concrete inputs — a fresh
timer after 1 tick has elapsed at most that after 2 ticks, a tick leaves a
non-running timer unchanged, a running session's elapsed reading at 11 s is
at most that at 12 s, and a stopped session reads 0. -/
theorem c9_witness :
    (MockTest.ticksQ 5 1 MockTest.initQ).elapsed_seconds
        ≤ (MockTest.ticksQ 5 2 MockTest.initQ).elapsed_seconds ∧
    MockTest.ticksQ 5 1 MockTest.initQ = MockTest.initQ ∧
    StudyTimer.Session.elapsed_since_start 11 ⟨240, some 10, [], 1⟩
        ≤ StudyTimer.Session.elapsed_since_start 12 ⟨240, some 10, [], 1⟩ ∧
    StudyTimer.Session.elapsed_since_start 11 ⟨240, none, [30], 1⟩ = 0 :=
  ⟨(c9_elapsed_monotone_frozen 5 1 2 11 12 MockTest.initQ ⟨240, some 10, [], 1⟩).1 (by decide),
   (c9_elapsed_monotone_frozen 5 1 2 11 12 MockTest.initQ ⟨240, some 10, [], 1⟩).2.1 rfl,
   (c9_elapsed_monotone_frozen 5 1 2 11 12 MockTest.initQ
      ⟨240, some 10, [], 1⟩).2.2.2.2.2.2.1 (by decide) rfl,
   (c9_elapsed_monotone_frozen 5 1 2 11 12 MockTest.initQ
      ⟨240, none, [30], 1⟩).2.2.2.2.2.2.2 rfl⟩

/-- C10: every session row the study-timer logger writes satisfies
`0 ≤ correct ≤ attempted`: no row is written when `attempted = 0`, and a
written row's correct count equals `max 0 (attempted - wrong)` for the
non-negative wrong count obtained from `prompt_int`. -/
theorem c10_logged_row_invariant (s : StudyTimer.Session) (wall : Int) (now : String)
    (inputs : List String) (file : Option String) :
    (s.per_question_durations.length = 0 →
      (StudyTimer.finalizeSession s wall now inputs file).2 = none) ∧
    (∀ c w : Int, (StudyTimer.finalizeSession s wall now inputs file).2 = some (c, w) →
      0 ≤ w ∧ 0 ≤ c ∧ c ≤ (s.per_question_durations.length : Int) ∧
      c = max 0 ((s.per_question_durations.length : Int) - w)) := by
  constructor
  · intro h0
    simp [StudyTimer.finalizeSession, h0]
  · intro c w hcw
    by_cases h0 : s.per_question_durations.length = 0
    · simp [StudyTimer.finalizeSession, h0] at hcw
    · simp only [StudyTimer.finalizeSession] at hcw
      rw [if_neg h0] at hcw
      cases hp : StudyTimer.prompt_int inputs none with
      | none => simp [hp] at hcw
      | some wrong =>
        have hw := StudyTimer.prompt_int_nonneg inputs wrong hp
        simp [hp] at hcw
        obtain ⟨rfl, rfl⟩ := hcw
        refine ⟨hw, ?_, ?_, rfl⟩ <;> omega

/-- C10 witness: the row invariant at a concrete input — a session with two
recorded durations and the answer "1" logs `(correct, wrong) = (1, 1)`,
which satisfies `0 ≤ correct ≤ attempted` and
`correct = max 0 (attempted - wrong)`. -/
theorem c10_witness :
    (StudyTimer.finalizeSession ⟨240, none, [100, 200], 2⟩ 500 "2024-05-01" ["1"]
        (some "hdr")).2 = some (1, 1) ∧
    ((0:Int) ≤ 1 ∧ (0:Int) ≤ 1 ∧ (1:Int) ≤ (2:Int) ∧ (1:Int) = max 0 ((2:Int) - 1)) :=
  ⟨rfl,
   (c10_logged_row_invariant ⟨240, none, [100, 200], 2⟩ 500 "2024-05-01" ["1"]
      (some "hdr")).2 1 1 rfl⟩
